import Mathlib

/-!
# WoWSQL-go client SDK: shallow embedding and verification

This file embeds the Go client SDK (storage client, schema client, auth
client, and the byte-formatting helper) as pure Lean functions.  HTTP I/O is
abstracted by an environment: a transport function from requests to either a
transport failure (no HTTP response) or a response carrying a status code and
a raw body, together with per-shape JSON decoders (Go json.Unmarshal is kept
abstract since response bodies are arbitrary strings).  Every client
operation is a pure function of the client value, the environment and the
arguments, returning its result together with the list of HTTP requests it
issued (and, for the auth client, the updated client state).
-/

/-- The error taxonomy of the SDK.  Typed Go error structs become
constructors carrying their fields; errors produced by fmt.Errorf (plain
formatted errors with no distinguished type) become the fmtError
constructor carrying the formatted message. -/
inductive GoError where
  | networkError (cause : String)
  | storageError (cause : String)
  | authenticationError (message : String)
  | permissionError (message : String)
  | notFoundError (message : String)
  | rateLimitError (message : String)
  | validationError (message : String)
  | serverError (message : String)
  | storageLimitExceeded (message : String) (requiredBytes availableBytes : Int)
  | wowsqlError (message : String)
  | fmtError (message : String)
  deriving Repr, DecidableEq

/-- Whether an error is a NetworkError value (the Go type assertion
errors.As with target *NetworkError). -/
def GoError.isNetworkError : GoError → Bool
  | .networkError _ => true
  | _ => false

/-- Whether an error is a PermissionError value. -/
def GoError.isPermissionError : GoError → Bool
  | .permissionError _ => true
  | _ => false

/-- Whether an error is a NotFoundError value (the type assertion
err.(*NotFoundError) in FileExists). -/
def GoError.isNotFoundError : GoError → Bool
  | .notFoundError _ => true
  | _ => false

/-- An HTTP request as far as the embedded operations observe it: the
method and the path appended to the base URL.  Headers and bodies are
built by the Go code but never branch the control flow modelled here. -/
structure HttpReq where
  method : String
  path : String
  deriving Repr, DecidableEq

/-- Outcome of one attempted HTTP round trip: either a transport failure
before any response was received (connection refused, DNS failure,
timeout), or a response with a status code and a raw body. -/
inductive TransportResult where
  | failure (cause : String)
  | response (status : Nat) (body : String)
  deriving Repr, DecidableEq

/-! ## Byte formatting (formatBytes in the storage source file) -/

/-- Two-decimal rendering of the rational number num / den (den positive),
modelling the Go verb %.2f applied to float64(num)/float64(den): round to
the nearest hundredth, ties to even.  Go computes in binary floating point;
on the inputs exercised below the quotient is exactly representable, so the
models agree there. -/
def format2f (num den : Nat) : String :=
  let q := num * 100 / den
  let r := num * 100 % den
  let rounded :=
    if den < 2 * r then q + 1
    else if 2 * r < den then q
    else if q % 2 == 0 then q else q + 1
  toString (rounded / 100) ++ "." ++
    (if rounded % 100 < 10 then "0" ++ toString (rounded % 100)
     else toString (rounded % 100))

/-- The unit letters of the format string, the Go string KMGTPE indexed by
the loop exponent.  Indexing is in range for every non-negative int64
input (see fbLoop_exp_le below), so the default is never consulted. -/
def fbUnit (exp : Nat) : Char :=
  (['K', 'M', 'G', 'T', 'P', 'E']).getD exp 'K'

/-- The divisor-accumulation loop of formatBytes, written with an explicit
fuel argument so that it is structurally recursive (hence kernel
computable).  One unit of fuel is spent per iteration, and each iteration
divides n by 1024, so any fuel at least n is enough: with fuel at least n,
fuel can only be exhausted at n = 0, where the loop guard is false anyway. -/
def fbLoopF : (fuel : Nat) → Nat → Nat → Nat → Nat × Nat
  | 0, _, div, exp => (div, exp)
  | fuel + 1, n, div, exp =>
      if 1024 ≤ n then fbLoopF fuel (n / 1024) (div * 1024) (exp + 1)
      else (div, exp)

/-- The divisor-accumulation loop of formatBytes:
for n := bytes / unit; n >= unit; n /= unit \x7b div *= unit; exp++ \x7d. -/
def fbLoop (n div exp : Nat) : Nat × Nat :=
  fbLoopF n n div exp

/-- formatBytes formats a byte count as a human-readable string using
1024-based units, as the Go helper does.  The argument is int64, hence Int;
inputs below 1024 (negatives included) print as integers with the B unit,
larger inputs run the divisor loop and print two decimals. -/
def formatBytes (bytes : Int) : String :=
  if bytes < 1024 then
    toString bytes ++ " B"
  else
    let pair := fbLoop (bytes.toNat / 1024) 1024 0
    format2f bytes.toNat pair.1 ++ " " ++ String.mk [fbUnit pair.2, 'B']

/-! ## Storage client (the storage source file) -/

/-- Modelled from the spec: storage quota information (the models source
file declaring the Go struct is not under src/; the storage source reads
the StorageAvailableBytes int64 field, and the spec lists used bytes,
quota bytes, available bytes and a usage percentage). -/
structure StorageQuota where
  storageUsedBytes : Int
  storageQuotaBytes : Int
  storageAvailableBytes : Int
  usagePercentage : Int
  deriving Repr, DecidableEq

/-- Modelled from the spec: metadata of one stored file (the models source
file declaring the Go struct is not under src/); no operation modelled
here reads its fields. -/
structure StorageFile where
  key : String
  size : Int
  deriving Repr, DecidableEq

/-- Modelled from the spec: decoded success payload of an upload (the
models source file declaring the Go struct is not under src/); no
operation modelled here reads its fields. -/
structure FileUploadResult where
  key : String
  size : Int
  deriving Repr, DecidableEq

/-- Modelled from the spec: parseStorageError, the storage error
classifier (the errors source file defining it is not under src/).  Per
the spec taxonomy it classifies a non-2xx status code into the fixed
error kinds: 401 authentication, 403 permission, 404 not found, 429 rate
limit, other 4xx validation, 5xx server; remaining statuses degrade to a
generic error.  The message extracted from the JSON error body is
abstracted as the raw body text. -/
def parseStorageError (status : Nat) (body : String) : GoError :=
  if status == 401 then .authenticationError body
  else if status == 403 then .permissionError body
  else if status == 404 then .notFoundError body
  else if status == 429 then .rateLimitError body
  else if 400 ≤ status ∧ status < 500 then .validationError body
  else if 500 ≤ status then .serverError body
  else .wowsqlError body

/-- The environment a storage operation runs against: the HTTP transport
and the json.Unmarshal decoders for each expected response shape (bodies
are arbitrary strings, so decoding is kept abstract). -/
structure StorageEnv where
  transport : HttpReq → TransportResult
  decodeQuota : String → Option StorageQuota
  decodeFile : String → Option StorageFile
  decodeUploadResult : String → Option FileUploadResult

/-- The storage client struct: project URL, API key, HTTP client timeout
(seconds) and the autoCheckQuota flag. -/
structure StorageClient where
  projectURL : String
  apiKey : String
  timeoutSeconds : Nat
  autoCheckQuota : Bool
  deriving Repr, DecidableEq

/-- NewStorageClient: autoCheckQuota defaults to true, timeout 60s. -/
def NewStorageClient (projectURL apiKey : String) : StorageClient :=
  { projectURL := projectURL, apiKey := apiKey,
    timeoutSeconds := 60, autoCheckQuota := true }

/-- NewStorageClientWithOptions: caller-supplied timeout and
autoCheckQuota flag. -/
def NewStorageClientWithOptions (projectURL apiKey : String)
    (timeoutSeconds : Nat) (autoCheckQuota : Bool) : StorageClient :=
  { projectURL := projectURL, apiKey := apiKey,
    timeoutSeconds := timeoutSeconds, autoCheckQuota := autoCheckQuota }

/-- StorageClient.doRequest: one JSON round trip.  A transport failure is
wrapped in a StorageError; a non-2xx status is passed to
parseStorageError; a 2xx status returns the raw body.  The second
component lists the HTTP requests issued (always exactly one here). -/
def StorageClient.doRequest (s : StorageClient) (env : StorageEnv)
    (method path : String) : Except GoError String × List HttpReq :=
  let req : HttpReq := { method := method, path := path }
  match env.transport req with
  | .failure cause => (.error (.storageError cause), [req])
  | .response status body =>
      if status < 200 ∨ 300 ≤ status then
        (.error (parseStorageError status body), [req])
      else
        (.ok body, [req])

/-- StorageClient.GetQuota: GET the quota endpoint and unmarshal a
StorageQuota; an unmarshal failure is a plain formatted parse error. -/
def StorageClient.GetQuota (s : StorageClient) (env : StorageEnv) :
    Except GoError StorageQuota × List HttpReq :=
  match s.doRequest env "GET" "/api/v1/storage/quota" with
  | (.error e, reqs) => (.error e, reqs)
  | (.ok body, reqs) =>
      match env.decodeQuota body with
      | none => (.error (.fmtError "failed to parse response"), reqs)
      | some quota => (.ok quota, reqs)

/-- StorageClient.GetFileInfo: GET the info endpoint for a key and
unmarshal a StorageFile. -/
def StorageClient.GetFileInfo (s : StorageClient) (env : StorageEnv)
    (key : String) : Except GoError StorageFile × List HttpReq :=
  match s.doRequest env "GET" ("/api/v1/storage/info?key=" ++ key) with
  | (.error e, reqs) => (.error e, reqs)
  | (.ok body, reqs) =>
      match env.decodeFile body with
      | none => (.error (.fmtError "failed to parse response"), reqs)
      | some file => (.ok file, reqs)

/-- StorageClient.FileExists: a NotFoundError from GetFileInfo becomes
(false, nil); any other error propagates; success is (true, nil). -/
def StorageClient.FileExists (s : StorageClient) (env : StorageEnv)
    (key : String) : Except GoError Bool × List HttpReq :=
  match s.GetFileInfo env key with
  | (.error (.notFoundError _), reqs) => (.ok false, reqs)
  | (.error e, reqs) => (.error e, reqs)
  | (.ok _, reqs) => (.ok true, reqs)

/-- The multipart POST of Upload, after the optional quota pre-check: the
form fields and file part never fail to build for in-memory data, so the
round trip is the first effect.  A transport failure is wrapped in a
StorageError; a non-2xx status goes through parseStorageError; a 2xx
body is unmarshalled into a FileUploadResult. -/
def StorageClient.uploadDispatch (s : StorageClient) (env : StorageEnv) :
    Except GoError FileUploadResult × List HttpReq :=
  let req : HttpReq := { method := "POST", path := "/api/v1/storage/upload" }
  match env.transport req with
  | .failure cause => (.error (.storageError cause), [req])
  | .response status body =>
      if status < 200 ∨ 300 ≤ status then
        (.error (parseStorageError status body), [req])
      else
        match env.decodeUploadResult body with
        | none => (.error (.fmtError "failed to parse response"), [req])
        | some result => (.ok result, [req])

/-- The message carried by the client-side StorageLimitExceededError. -/
def storageLimitMsg (required available : Int) : String :=
  "Storage limit exceeded. Need " ++ formatBytes required ++
    ", but only " ++ formatBytes available ++ " available."

/-- StorageClient.Upload: shouldCheck is the autoCheckQuota field unless
the checkQuota argument overrides it; when checking, a fetched quota with
fewer available bytes than the payload length fails locally with a
StorageLimitExceededError before any upload request; otherwise the
multipart upload is dispatched.  fileData is the payload as a byte list;
only its length is consulted. -/
def StorageClient.Upload (s : StorageClient) (env : StorageEnv)
    (fileData : List Nat) (key contentType : String)
    (checkQuota : Option Bool) :
    Except GoError FileUploadResult × List HttpReq :=
  let shouldCheck := match checkQuota with
    | some b => b
    | none => s.autoCheckQuota
  if shouldCheck then
    match s.GetQuota env with
    | (.error e, reqs) => (.error e, reqs)
    | (.ok quota, reqs) =>
        if quota.storageAvailableBytes < (fileData.length : Int) then
          (.error (.storageLimitExceeded
              (storageLimitMsg (fileData.length : Int) quota.storageAvailableBytes)
              (fileData.length : Int) quota.storageAvailableBytes), reqs)
        else
          match s.uploadDispatch env with
          | (r, reqs2) => (r, reqs ++ reqs2)
  else
    s.uploadDispatch env

/-! ## Auth client (the auth client source file)

Operations are state transitions: each returns the updated client (the Go
methods mutate the receiver through a pointer), the result, and the list
of HTTP requests issued. -/

/-- An authenticated user, as decoded from response bodies.  The metadata
maps of the Go struct hold arbitrary JSON; they are abstracted as
string-to-string association lists since no modelled operation reads
them. -/
structure AuthUser where
  id : String
  email : String
  fullName : String
  emailVerified : Bool
  deriving Repr, DecidableEq

/-- AuthSession: the session token record. -/
structure AuthSession where
  accessToken : String
  refreshToken : String
  tokenType : String
  expiresIn : Int
  deriving Repr, DecidableEq

/-- AuthResult: user (when the endpoint returns one) plus session. -/
structure AuthResult where
  user : Option AuthUser
  session : AuthSession
  deriving Repr, DecidableEq

/-- The wire shape authResponse: optional user plus token fields. -/
structure AuthResponseData where
  user : Option AuthUser
  accessToken : String
  refreshToken : String
  tokenType : String
  expiresIn : Int
  deriving Repr, DecidableEq

/-- The wire shape loginResponse: token fields only. -/
structure LoginResponseData where
  accessToken : String
  refreshToken : String
  tokenType : String
  expiresIn : Int
  deriving Repr, DecidableEq

/-- Modelled from the spec: parseError, the shared error classifier used
by the auth client (the errors source file defining it is not under
src/); same status classification as parseStorageError. -/
def parseError (status : Nat) (body : String) : GoError :=
  if status == 401 then .authenticationError body
  else if status == 403 then .permissionError body
  else if status == 404 then .notFoundError body
  else if status == 429 then .rateLimitError body
  else if 400 ≤ status ∧ status < 500 then .validationError body
  else if 500 ≤ status then .serverError body
  else .wowsqlError body

/-- The environment an auth operation runs against: transport plus the
json.Unmarshal decoders for each expected response shape.  Generic
map-of-JSON results are abstracted as association lists. -/
structure AuthEnv where
  transport : HttpReq → TransportResult
  decodeAuthResponse : String → Option AuthResponseData
  decodeLoginResponse : String → Option LoginResponseData
  decodeUser : String → Option AuthUser
  decodeMap : String → Option (List (String × String))

/-- The auth client struct: base URL, unified API key, the deprecated
public key copy, and the stored session tokens. -/
structure AuthClient where
  baseURL : String
  apiKey : String
  publicKey : String
  accessToken : String
  refreshToken : String
  deriving Repr, DecidableEq

/-- NewAuthClient over already-normalized inputs: stored tokens start
empty, the public key mirrors the unified key. -/
def NewAuthClient (baseURL unifiedKey : String) : AuthClient :=
  { baseURL := baseURL, apiKey := unifiedKey, publicKey := unifiedKey,
    accessToken := "", refreshToken := "" }

/-- AuthClient.doRequest: one JSON round trip.  A transport failure is
wrapped in a NetworkError; a non-2xx status is passed to parseError; a
2xx status returns the raw body. -/
def AuthClient.doRequest (c : AuthClient) (env : AuthEnv)
    (method path : String) : Except GoError String × List HttpReq :=
  let req : HttpReq := { method := method, path := path }
  match env.transport req with
  | .failure cause => (.error (.networkError cause), [req])
  | .response status body =>
      if status < 200 ∨ 300 ≤ status then
        (.error (parseError status body), [req])
      else
        (.ok body, [req])

/-- AuthClient.persistSession: store the access and refresh tokens. -/
def AuthClient.persistSession (c : AuthClient) (session : AuthSession) :
    AuthClient :=
  { c with accessToken := session.accessToken,
           refreshToken := session.refreshToken }

/-- AuthClient.SignUp: POST /signup, decode an authResponse, persist the
session on success. -/
def AuthClient.SignUp (c : AuthClient) (env : AuthEnv)
    (email password : String) :
    AuthClient × Except GoError AuthResult × List HttpReq :=
  match c.doRequest env "POST" "/signup" with
  | (.error e, reqs) => (c, .error e, reqs)
  | (.ok body, reqs) =>
      match env.decodeAuthResponse body with
      | none => (c, .error (.fmtError "failed to parse signup response"), reqs)
      | some resp =>
          let session : AuthSession :=
            { accessToken := resp.accessToken,
              refreshToken := resp.refreshToken,
              tokenType := resp.tokenType, expiresIn := resp.expiresIn }
          (c.persistSession session,
           .ok { user := resp.user, session := session }, reqs)

/-- AuthClient.SignIn: POST /login, decode a loginResponse, persist the
session on success; the result carries no user. -/
def AuthClient.SignIn (c : AuthClient) (env : AuthEnv)
    (email password : String) :
    AuthClient × Except GoError AuthResult × List HttpReq :=
  match c.doRequest env "POST" "/login" with
  | (.error e, reqs) => (c, .error e, reqs)
  | (.ok body, reqs) =>
      match env.decodeLoginResponse body with
      | none => (c, .error (.fmtError "failed to parse login response"), reqs)
      | some resp =>
          let session : AuthSession :=
            { accessToken := resp.accessToken,
              refreshToken := resp.refreshToken,
              tokenType := resp.tokenType, expiresIn := resp.expiresIn }
          (c.persistSession session,
           .ok { user := none, session := session }, reqs)

/-- The token GetUser acts with: the first non-empty override if one is
passed, else the stored access token. -/
def AuthClient.effectiveToken (c : AuthClient)
    (tokenOverride : Option String) : String :=
  match tokenOverride with
  | some t => if t ≠ "" then t else c.accessToken
  | none => c.accessToken

/-- AuthClient.GetUser: requires a token (stored unless overridden),
GET /me with an Authorization override header, decode an AuthUser; never
touches the stored session. -/
def AuthClient.GetUser (c : AuthClient) (env : AuthEnv)
    (tokenOverride : Option String) :
    AuthClient × Except GoError AuthUser × List HttpReq :=
  if c.effectiveToken tokenOverride = "" then
    (c, .error (.wowsqlError "access token is required to fetch user profile"), [])
  else
    match c.doRequest env "GET" "/me" with
    | (.error e, reqs) => (c, .error e, reqs)
    | (.ok body, reqs) =>
        match env.decodeUser body with
        | none => (c, .error (.fmtError "failed to parse user response"), reqs)
        | some user => (c, .ok user, reqs)

/-- AuthClient.GetOAuthAuthorizationURL: GET the provider authorize
endpoint; the decoded payload is abstracted as a map. -/
def AuthClient.GetOAuthAuthorizationURL (c : AuthClient) (env : AuthEnv)
    (provider redirectURL : String) :
    AuthClient × Except GoError (List (String × String)) × List HttpReq :=
  match c.doRequest env "GET"
      ("/oauth/" ++ provider ++ "?frontend_redirect_uri=" ++ redirectURL) with
  | (.error e, reqs) => (c, .error e, reqs)
  | (.ok body, reqs) =>
      match env.decodeMap body with
      | none => (c, .error (.fmtError "failed to parse oauth response"), reqs)
      | some m => (c, .ok m, reqs)

/-- AuthClient.ExchangeOAuthCallback: POST the provider callback
endpoint, decode an authResponse, persist the session on success. -/
def AuthClient.ExchangeOAuthCallback (c : AuthClient) (env : AuthEnv)
    (provider code : String) (redirectURI : Option String) :
    AuthClient × Except GoError AuthResult × List HttpReq :=
  match c.doRequest env "POST" ("/oauth/" ++ provider ++ "/callback") with
  | (.error e, reqs) => (c, .error e, reqs)
  | (.ok body, reqs) =>
      match env.decodeAuthResponse body with
      | none =>
          (c, .error (.fmtError "failed to parse oauth callback response"), reqs)
      | some resp =>
          let session : AuthSession :=
            { accessToken := resp.accessToken,
              refreshToken := resp.refreshToken,
              tokenType := resp.tokenType, expiresIn := resp.expiresIn }
          (c.persistSession session,
           .ok { user := resp.user, session := session }, reqs)

/-- AuthClient.ForgotPassword: POST /forgot-password; never touches the
stored session. -/
def AuthClient.ForgotPassword (c : AuthClient) (env : AuthEnv)
    (email : String) :
    AuthClient × Except GoError (List (String × String)) × List HttpReq :=
  match c.doRequest env "POST" "/forgot-password" with
  | (.error e, reqs) => (c, .error e, reqs)
  | (.ok body, reqs) =>
      match env.decodeMap body with
      | none =>
          (c, .error (.fmtError "failed to parse forgot password response"), reqs)
      | some m => (c, .ok m, reqs)

/-- AuthClient.ResetPassword: POST /reset-password; never touches the
stored session. -/
def AuthClient.ResetPassword (c : AuthClient) (env : AuthEnv)
    (token newPassword : String) :
    AuthClient × Except GoError (List (String × String)) × List HttpReq :=
  match c.doRequest env "POST" "/reset-password" with
  | (.error e, reqs) => (c, .error e, reqs)
  | (.ok body, reqs) =>
      match env.decodeMap body with
      | none =>
          (c, .error (.fmtError "failed to parse reset password response"), reqs)
      | some m => (c, .ok m, reqs)

/-- AuthClient.GetSession: a copy of the stored tokens with a constant
bearer token type. -/
def AuthClient.GetSession (c : AuthClient) : AuthSession :=
  { accessToken := c.accessToken, refreshToken := c.refreshToken,
    tokenType := "bearer", expiresIn := 0 }

/-- AuthClient.SetSession: overwrite the stored tokens. -/
def AuthClient.SetSession (c : AuthClient)
    (accessToken refreshToken : String) : AuthClient :=
  { c with accessToken := accessToken, refreshToken := refreshToken }

/-- AuthClient.ClearSession: reset both stored tokens to empty. -/
def AuthClient.ClearSession (c : AuthClient) : AuthClient :=
  { c with accessToken := "", refreshToken := "" }

/-- The message of the OTP purpose validation error (quotes around the
purpose names elided). -/
def otpPurposeMsg : String :=
  "purpose must be login, signup, or password_reset"

/-- AuthClient.SendOTP: reject a purpose outside login, signup,
password_reset locally (no request); otherwise POST /otp/send; never
touches the stored session. -/
def AuthClient.SendOTP (c : AuthClient) (env : AuthEnv)
    (email purpose : String) :
    AuthClient × Except GoError (List (String × String)) × List HttpReq :=
  if purpose ≠ "login" ∧ purpose ≠ "signup" ∧ purpose ≠ "password_reset" then
    (c, .error (.fmtError otpPurposeMsg), [])
  else
    match c.doRequest env "POST" "/otp/send" with
    | (.error e, reqs) => (c, .error e, reqs)
    | (.ok body, reqs) =>
        match env.decodeMap body with
        | none =>
            (c, .error (.fmtError "failed to parse send OTP response"), reqs)
        | some m => (c, .ok m, reqs)

/-- AuthClient.VerifyOTP: reject a purpose outside login, signup,
password_reset locally, and a password_reset purpose without a new
password, both before any request; otherwise POST /otp/verify.  On a 2xx
response: for password_reset decode a generic map and return an empty
session without persisting; otherwise decode an authResponse and persist
the session. -/
def AuthClient.VerifyOTP (c : AuthClient) (env : AuthEnv)
    (email otp purpose : String) (newPassword : Option String) :
    AuthClient × Except GoError AuthResult × List HttpReq :=
  if purpose ≠ "login" ∧ purpose ≠ "signup" ∧ purpose ≠ "password_reset" then
    (c, .error (.fmtError otpPurposeMsg), [])
  else if purpose = "password_reset" ∧ newPassword = none then
    (c, .error (.fmtError "newPassword is required for password_reset purpose"), [])
  else
    match c.doRequest env "POST" "/otp/verify" with
    | (.error e, reqs) => (c, .error e, reqs)
    | (.ok body, reqs) =>
        if purpose = "password_reset" then
          match env.decodeMap body with
          | none =>
              (c, .error (.fmtError "failed to parse verify OTP response"), reqs)
          | some _ =>
              (c, .ok { user := none,
                        session := { accessToken := "", refreshToken := "",
                                     tokenType := "", expiresIn := 0 } }, reqs)
        else
          match env.decodeAuthResponse body with
          | none =>
              (c, .error (.fmtError "failed to parse verify OTP response"), reqs)
          | some resp =>
              let session : AuthSession :=
                { accessToken := resp.accessToken,
                  refreshToken := resp.refreshToken,
                  tokenType := resp.tokenType, expiresIn := resp.expiresIn }
              (c.persistSession session,
               .ok { user := resp.user, session := session }, reqs)

/-- AuthClient.SendMagicLink: reject a purpose outside login, signup,
email_verification locally; otherwise POST /magic-link/send; never
touches the stored session. -/
def AuthClient.SendMagicLink (c : AuthClient) (env : AuthEnv)
    (email purpose : String) :
    AuthClient × Except GoError (List (String × String)) × List HttpReq :=
  if purpose ≠ "login" ∧ purpose ≠ "signup" ∧ purpose ≠ "email_verification" then
    (c, .error (.fmtError "purpose must be login, signup, or email_verification"), [])
  else
    match c.doRequest env "POST" "/magic-link/send" with
    | (.error e, reqs) => (c, .error e, reqs)
    | (.ok body, reqs) =>
        match env.decodeMap body with
        | none =>
            (c, .error (.fmtError "failed to parse send magic link response"), reqs)
        | some m => (c, .ok m, reqs)

/-- AuthClient.VerifyEmail: POST /verify-email; never touches the stored
session. -/
def AuthClient.VerifyEmail (c : AuthClient) (env : AuthEnv)
    (token : String) :
    AuthClient × Except GoError (List (String × String)) × List HttpReq :=
  match c.doRequest env "POST" "/verify-email" with
  | (.error e, reqs) => (c, .error e, reqs)
  | (.ok body, reqs) =>
      match env.decodeMap body with
      | none =>
          (c, .error (.fmtError "failed to parse verify email response"), reqs)
      | some m => (c, .ok m, reqs)

/-- AuthClient.ResendVerification: POST /resend-verification; never
touches the stored session. -/
def AuthClient.ResendVerification (c : AuthClient) (env : AuthEnv)
    (email : String) :
    AuthClient × Except GoError (List (String × String)) × List HttpReq :=
  match c.doRequest env "POST" "/resend-verification" with
  | (.error e, reqs) => (c, .error e, reqs)
  | (.ok body, reqs) =>
      match env.decodeMap body with
      | none =>
          (c, .error (.fmtError "failed to parse resend verification response"), reqs)
      | some m => (c, .ok m, reqs)

/-! ## Schema client

The repository carries two versions of the schema source file: the root
one (typed CreateTableRequest / SchemaResponse) and the one under the
package directory (CreateTableOptions, returning a generic map).  Both
are embedded; the struct fields agree, so one client structure serves
both.  json.Marshal of the request structs cannot fail for these field
types, so marshalling is modelled as always succeeding. -/

/-- A column definition for table creation (root version; the pointer
fields become options). -/
structure ColumnDefinition where
  name : String
  type : String
  autoIncrement : Option Bool
  unique : Option Bool
  nullable : Option Bool
  default : Option String
  deriving Repr, DecidableEq

/-- A request to create a table (root version). -/
structure CreateTableRequest where
  tableName : String
  columns : List ColumnDefinition
  primaryKey : Option String
  indexes : List String
  deriving Repr, DecidableEq

/-- A request to alter a table (root version). -/
structure AlterTableRequest where
  tableName : String
  operation : String
  columnName : Option String
  columnType : Option String
  newColumnName : Option String
  nullable : Option Bool
  default : Option String
  deriving Repr, DecidableEq

/-- A schema operation response (root version). -/
structure SchemaResponse where
  success : Bool
  message : String
  table : String
  operation : String
  rowsAffected : Int
  warning : String
  deriving Repr, DecidableEq

/-- The schema client struct: base URL and service key. -/
structure SchemaClient where
  baseURL : String
  serviceKey : String
  deriving Repr, DecidableEq

/-- NewSchemaClient. -/
def NewSchemaClient (projectURL serviceKey : String) : SchemaClient :=
  { baseURL := projectURL, serviceKey := serviceKey }

/-- The environment a schema operation runs against: transport, the
lookup of the detail field of a decoded JSON error body (none when the
body does not decode or carries no string detail), and the decoders of
success bodies. -/
structure SchemaEnv where
  transport : HttpReq → TransportResult
  decodeDetail : String → Option String
  decodeSchemaResponse : String → Option SchemaResponse
  decodeMap : String → Option (List (String × String))

/-- The Go verb %v applied to the detail entry of the decoded error map:
a missing entry (nil interface value) prints as the angle-bracketed nil
placeholder. -/
def goFmtDetail : Option String → String
  | some d => d
  | none => "<nil>"

/-- The Go verb %t applied to a bool. -/
def goBool (b : Bool) : String := if b then "true" else "false"

/-- The 403 message of the root CreateTable. -/
def schemaPermissionMsgLong : String :=
  "schema operations require a SERVICE ROLE key. You are using an anonymous key which cannot modify database schema"

/-- The 403 message of the other schema mutations. -/
def schemaPermissionMsgShort : String :=
  "schema operations require a SERVICE ROLE key"

/-- SchemaClient.CreateTable (root version): POST the tables endpoint; a
transport failure becomes a plain formatted error wrapping the cause; a
403 becomes the plain formatted service-role message; any other non-200
status (2xx included) becomes a plain formatted error holding the detail
of the decoded error body; a 200 body is decoded as a SchemaResponse. -/
def SchemaClient.CreateTable (c : SchemaClient) (env : SchemaEnv)
    (req : CreateTableRequest) : Except GoError SchemaResponse :=
  match env.transport { method := "POST", path := "/api/v2/schema/tables" } with
  | .failure cause => .error (.fmtError ("failed to execute request: " ++ cause))
  | .response status body =>
      if status == 403 then
        .error (.fmtError schemaPermissionMsgLong)
      else if status ≠ 200 then
        .error (.fmtError
          ("failed to create table: " ++ goFmtDetail (env.decodeDetail body)))
      else
        match env.decodeSchemaResponse body with
        | none => .error (.fmtError "failed to decode response")
        | some result => .ok result

/-- SchemaClient.AlterTable (root version): PATCH the table endpoint;
same status handling as CreateTable with the short 403 message. -/
def SchemaClient.AlterTable (c : SchemaClient) (env : SchemaEnv)
    (req : AlterTableRequest) : Except GoError SchemaResponse :=
  match env.transport
      { method := "PATCH", path := "/api/v2/schema/tables/" ++ req.tableName } with
  | .failure cause => .error (.fmtError ("failed to execute request: " ++ cause))
  | .response status body =>
      if status == 403 then
        .error (.fmtError schemaPermissionMsgShort)
      else if status ≠ 200 then
        .error (.fmtError
          ("failed to alter table: " ++ goFmtDetail (env.decodeDetail body)))
      else
        match env.decodeSchemaResponse body with
        | none => .error (.fmtError "failed to decode response")
        | some result => .ok result

/-- SchemaClient.DropTable (root version): DELETE the table endpoint with
the cascade flag; same status handling with the short 403 message. -/
def SchemaClient.DropTable (c : SchemaClient) (env : SchemaEnv)
    (tableName : String) (cascade : Bool) : Except GoError SchemaResponse :=
  match env.transport
      { method := "DELETE",
        path := "/api/v2/schema/tables/" ++ tableName ++ "?cascade=" ++ goBool cascade } with
  | .failure cause => .error (.fmtError ("failed to execute request: " ++ cause))
  | .response status body =>
      if status == 403 then
        .error (.fmtError schemaPermissionMsgShort)
      else if status ≠ 200 then
        .error (.fmtError
          ("failed to drop table: " ++ goFmtDetail (env.decodeDetail body)))
      else
        match env.decodeSchemaResponse body with
        | none => .error (.fmtError "failed to decode response")
        | some result => .ok result

/-- SchemaClient.ExecuteSQL (root version): POST the execute endpoint;
same status handling with the short 403 message. -/
def SchemaClient.ExecuteSQL (c : SchemaClient) (env : SchemaEnv)
    (sql : String) : Except GoError SchemaResponse :=
  match env.transport { method := "POST", path := "/api/v2/schema/execute" } with
  | .failure cause => .error (.fmtError ("failed to execute request: " ++ cause))
  | .response status body =>
      if status == 403 then
        .error (.fmtError schemaPermissionMsgShort)
      else if status ≠ 200 then
        .error (.fmtError
          ("failed to execute SQL: " ++ goFmtDetail (env.decodeDetail body)))
      else
        match env.decodeSchemaResponse body with
        | none => .error (.fmtError "failed to decode response")
        | some result => .ok result

/-- SchemaClient.CreateTable, package-directory version: accepts statuses
200 and 201 as success (result decoded as a generic map); a 403 becomes
the plain formatted service-role message; other statuses become a plain
formatted error holding the string detail when one decodes, else the raw
status number. -/
def SchemaClient.CreateTableV2 (c : SchemaClient) (env : SchemaEnv)
    (options : CreateTableRequest) :
    Except GoError (List (String × String)) :=
  match env.transport { method := "POST", path := "/api/v2/schema/tables" } with
  | .failure cause => .error (.fmtError ("request failed: " ++ cause))
  | .response status body =>
      if status == 403 then
        .error (.fmtError schemaPermissionMsgLong)
      else if status ≠ 200 ∧ status ≠ 201 then
        .error (.fmtError
          (match env.decodeDetail body with
           | some detail => "failed to create table: " ++ detail
           | none => "failed to create table: status " ++ toString status))
      else
        match env.decodeMap body with
        | none => .error (.fmtError "failed to decode response")
        | some result => .ok result

/-! ## Query builder (spec-modelled; the database/query-builder source
file is not under src/, only the spec and the README document it) -/

/-- A Record: column name to JSON-compatible value; values are
abstracted as strings. -/
abbrev Record := List (String × String)

/-- A sort direction. -/
inductive SortDirection where
  | asc
  | desc
  deriving Repr, DecidableEq

/-- Modelled from the spec: the accumulated state of the fluent query
builder (table, projection, conjoined filter predicates, optional sort,
optional limit and offset).  The query-builder source file is not under
src/. -/
structure Query where
  table : String
  selectCols : List String
  filters : List (String × String × String)
  sort : Option (String × SortDirection)
  limit : Option Nat
  offset : Option Nat
  deriving Repr, DecidableEq

/-- The environment a read query runs against: the dispatched fetch of a
serialized query, returning rows or a fetch error. -/
structure DbEnv where
  fetch : Query → Except GoError (List Record)

/-- Modelled from the spec: execute() — serialize the accumulated state,
dispatch one read request, return the rows or fail with the fetch
error.  The query-builder source file is not under src/. -/
def Query.execute (q : Query) (env : DbEnv) : Except GoError (List Record) :=
  env.fetch q

/-- Modelled from the spec: first() — execute() with the limit forced to
1; the single Record, or an absent value when the result set is empty
(not an error).  The query-builder source file is not under src/. -/
def Query.first (q : Query) (env : DbEnv) : Except GoError (Option Record) :=
  match Query.execute { q with limit := some 1 } env with
  | .error e => .error e
  | .ok records => .ok records.head?

/-! ## Supporting lemmas -/

/-- Characterization of the formatBytes loop: with enough fuel it
multiplies the divisor by 1024 once per iteration, so it returns the
divisor scaled by the power of 1024 that brings n below 1024. -/
theorem fbLoopF_spec (fuel : Nat) :
    ∀ n div exp, n ≤ fuel → ∃ k,
      fbLoopF fuel n div exp = (div * 1024 ^ k, exp + k) ∧
      n / 1024 ^ k < 1024 ∧ (k = 0 ∨ 1024 ^ k ≤ n) := by
  induction fuel with
  | zero =>
      intro n div exp hn
      refine ⟨0, ?_, ?_, Or.inl rfl⟩
      · simp [fbLoopF]
      · omega
  | succ fuel ih =>
      intro n div exp hn
      by_cases h : 1024 ≤ n
      · have hrec : n / 1024 ≤ fuel := by
          have := Nat.div_lt_self (by omega : 0 < n) (by omega : 1 < 1024)
          omega
        obtain ⟨k, hEq, hLt, hGe⟩ := ih (n / 1024) (div * 1024) (exp + 1) hrec
        refine ⟨k + 1, ?_, ?_, Or.inr ?_⟩
        · simp only [fbLoopF, if_pos h, hEq, Prod.mk.injEq]
          constructor
          · ring
          · omega
        · have : n / 1024 / 1024 ^ k = n / 1024 ^ (k + 1) := by
            rw [Nat.div_div_eq_div_mul, ← pow_succ']
          omega
        · rcases hGe with hk0 | hk
          · subst hk0; simpa using h
          · have : 1024 ^ k * 1024 ≤ n :=
              (Nat.le_div_iff_mul_le (by omega : 0 < 1024)).mp hk
            calc 1024 ^ (k + 1) = 1024 ^ k * 1024 := by rw [pow_succ]
              _ ≤ n := this
      · refine ⟨0, ?_, ?_, Or.inl rfl⟩
        · simp [fbLoopF, h]
        · simpa using Nat.lt_of_not_le h

/-- The loop as called by formatBytes: starting from divisor 1024 and
exponent 0 on bytes / 1024, it lands on the unique power of 1024 whose
next power exceeds the byte count. -/
theorem fbLoop_spec (b : Nat) (hb : 1024 ≤ b) : ∃ e,
    fbLoop (b / 1024) 1024 0 = (1024 ^ (e + 1), e) ∧
    1024 ^ (e + 1) ≤ b ∧ b < 1024 ^ (e + 2) := by
  obtain ⟨k, hEq, hLt, hGe⟩ := fbLoopF_spec (b / 1024) (b / 1024) 1024 0 le_rfl
  refine ⟨k, ?_, ?_, ?_⟩
  · rw [fbLoop, hEq]
    simp [pow_succ']
  · rcases hGe with h0 | hk
    · subst h0; simpa using hb
    · have h1 : 1024 ^ k * 1024 ≤ b :=
        (Nat.le_div_iff_mul_le (by omega : 0 < 1024)).mp hk
      calc 1024 ^ (k + 1) = 1024 ^ k * 1024 := by rw [pow_succ]
        _ ≤ b := h1
  · have hdd : b / 1024 / 1024 ^ k = b / 1024 ^ (k + 1) := by
      rw [Nat.div_div_eq_div_mul, ← pow_succ']
    rw [hdd] at hLt
    have := (Nat.div_lt_iff_lt_mul
      (by positivity : 0 < 1024 ^ (k + 1))).mp hLt
    calc b < 1024 * 1024 ^ (k + 1) := this
      _ = 1024 ^ (k + 2) := by rw [← pow_succ']

/-! ## Claim theorems -/

/-- GetQuota always issues exactly the GET of the quota endpoint. -/
theorem StorageClient.getQuota_requests (s : StorageClient) (env : StorageEnv) :
    (s.GetQuota env).2 = [{ method := "GET", path := "/api/v1/storage/quota" }] := by
  unfold StorageClient.GetQuota StorageClient.doRequest
  rcases h : env.transport { method := "GET", path := "/api/v1/storage/quota" }
    with cause | ⟨status, body⟩
  · simp [h]
  · simp only [h]
    by_cases h2 : status < 200 ∨ 300 ≤ status
    · simp [h2]
    · simp only [if_neg h2]
      cases env.decodeQuota body <;> simp

/-- uploadDispatch always issues exactly the POST of the upload
endpoint. -/
theorem StorageClient.uploadDispatch_requests (s : StorageClient)
    (env : StorageEnv) :
    (s.uploadDispatch env).2 =
      [{ method := "POST", path := "/api/v1/storage/upload" }] := by
  unfold StorageClient.uploadDispatch
  rcases h : env.transport { method := "POST", path := "/api/v1/storage/upload" }
    with cause | ⟨status, body⟩
  · simp [h]
  · simp only [h]
    by_cases h2 : status < 200 ∨ 300 ≤ status
    · simp [h2]
    · simp only [if_neg h2]
      cases env.decodeUploadResult body <;> simp

/-- C8: formatBytes uses binary (1024-based) units for every non-negative
input: an input below 1024 prints as an integer with unit B, and a larger
input prints two decimals of its value scaled by the power of 1024 that
lands it in the unit interval, with the matching KMGTPE unit letter
(whose index stays in range for every int64 input); in particular 0
prints as 0 B, 1536 as 1.50 KB and 1073741824 as 1.00 GB. -/
theorem formatBytes_binary_units :
    formatBytes 0 = "0 B" ∧ formatBytes 1536 = "1.50 KB" ∧
    formatBytes 1073741824 = "1.00 GB" ∧
    (∀ b : Int, 0 ≤ b → b < 1024 → formatBytes b = toString b ++ " B") ∧
    (∀ b : Nat, 1024 ≤ b → ∃ e : Nat,
      1024 ^ (e + 1) ≤ b ∧ b < 1024 ^ (e + 2) ∧ (b < 2 ^ 63 → e ≤ 5) ∧
      formatBytes (b : Int) =
        format2f b (1024 ^ (e + 1)) ++ " " ++ String.mk [fbUnit e, 'B']) := by
  refine ⟨by decide, by decide, by decide, ?_, ?_⟩
  · intro b _ hlt
    rw [formatBytes, if_pos hlt]
  · intro b hb
    obtain ⟨e, hEq, hle, hlt⟩ := fbLoop_spec b hb
    refine ⟨e, hle, hlt, ?_, ?_⟩
    · intro hb63
      by_contra h6
      have h7 : (1024 : Nat) ^ 7 ≤ 1024 ^ (e + 1) :=
        Nat.pow_le_pow_right (by omega) (by omega)
      have : (1024 : Nat) ^ 7 ≤ b := le_trans h7 hle
      norm_num at this
      omega
    · have hnotlt : ¬ ((b : Int) < 1024) := by
        exact_mod_cast Nat.not_lt.mpr hb
      rw [formatBytes, if_neg hnotlt]
      simp only [Int.toNat_natCast, hEq]

/-- Witness for C8: the theorem applied at inputs 500 and 2048. -/
theorem formatBytes_binary_units_witness :
    formatBytes 500 = toString (500 : Int) ++ " B" ∧
    ∃ e : Nat, 1024 ^ (e + 1) ≤ 2048 ∧ 2048 < 1024 ^ (e + 2) ∧
      ((2048 : Nat) < 2 ^ 63 → e ≤ 5) ∧
      formatBytes ((2048 : Nat) : Int) =
        format2f 2048 (1024 ^ (e + 1)) ++ " " ++ String.mk [fbUnit e, 'B'] :=
  ⟨formatBytes_binary_units.2.2.2.1 500 (by decide) (by decide),
   formatBytes_binary_units.2.2.2.2 2048 (by decide)⟩

/-- C9: first() is execute() with the limit forced to 1; an error
propagates, an empty result set yields an absent value (not an error),
and a non-empty one yields its first record. -/
theorem first_is_limited_execute (q : Query) (env : DbEnv) :
    (∀ e, Query.execute { q with limit := some 1 } env = .error e →
      Query.first q env = .error e) ∧
    (Query.execute { q with limit := some 1 } env = .ok [] →
      Query.first q env = .ok none) ∧
    (∀ r rs, Query.execute { q with limit := some 1 } env = .ok (r :: rs) →
      Query.first q env = .ok (some r)) := by
  refine ⟨?_, ?_, ?_⟩
  · intro e h
    simp [Query.first, h]
  · intro h
    simp [Query.first, h]
  · intro r rs h
    simp [Query.first, h]

/-- Witness for C9: the theorem applied to a concrete query and an
environment whose fetch returns an empty result set. -/
theorem first_is_limited_execute_witness :
    Query.first
      { table := "users", selectCols := [], filters := [],
        sort := none, limit := none, offset := none }
      { fetch := fun _ => .ok [] } = .ok none :=
  (first_is_limited_execute _ _).2.1 rfl



/-- C1: with the quota pre-check enabled (autoCheckQuota from
construction and no override, or an explicit override of true) and a
fetched quota whose available bytes are strictly below the payload
length, Upload fails with a StorageLimitExceededError whose
RequiredBytes is the payload length and whose AvailableBytes is the
available bytes of the quota, and the only request issued is the quota GET —
none to the upload endpoint. -/
theorem upload_quota_precheck (s : StorageClient) (env : StorageEnv)
    (fileData : List Nat) (key contentType : String)
    (checkQuota : Option Bool) (quota : StorageQuota)
    (hcheck : checkQuota = some true ∨
      (checkQuota = none ∧ s.autoCheckQuota = true))
    (hquota : (s.GetQuota env).1 = .ok quota)
    (hlt : quota.storageAvailableBytes < (fileData.length : Int)) :
    s.Upload env fileData key contentType checkQuota =
      (.error (.storageLimitExceeded
          (storageLimitMsg (fileData.length : Int) quota.storageAvailableBytes)
          (fileData.length : Int) quota.storageAvailableBytes),
        [{ method := "GET", path := "/api/v1/storage/quota" }]) ∧
    ∀ r ∈ (s.Upload env fileData key contentType checkQuota).2,
      r.path ≠ "/api/v1/storage/upload" := by
  have hpair : s.GetQuota env =
      (.ok quota, [{ method := "GET", path := "/api/v1/storage/quota" }]) :=
    Prod.ext hquota (s.getQuota_requests env)
  have hmain : s.Upload env fileData key contentType checkQuota =
      (.error (.storageLimitExceeded
          (storageLimitMsg (fileData.length : Int) quota.storageAvailableBytes)
          (fileData.length : Int) quota.storageAvailableBytes),
        [{ method := "GET", path := "/api/v1/storage/quota" }]) := by
    rcases hcheck with h | ⟨h1, h2⟩
    · subst h
      unfold StorageClient.Upload
      simp [hpair, hlt]
    · subst h1
      unfold StorageClient.Upload
      simp [h2, hpair, hlt]
  refine ⟨hmain, ?_⟩
  intro r hr
  rw [hmain] at hr
  simp only [List.mem_singleton] at hr
  subst hr
  decide

/-- Witness for C1: a client built by NewStorageClient (autoCheckQuota
true), no override, a quota fetch answering zero available bytes, and a
one-byte payload. -/
theorem upload_quota_precheck_witness :
    (NewStorageClient "https://p.wowsql.com" "anon").Upload
      { transport := fun _ => .response 200 "quotabody",
        decodeQuota := fun _ => some
          { storageUsedBytes := 7, storageQuotaBytes := 7,
            storageAvailableBytes := 0, usagePercentage := 100 },
        decodeFile := fun _ => none,
        decodeUploadResult := fun _ => none }
      [42] "uploads/a.txt" "" none =
      (.error (.storageLimitExceeded (storageLimitMsg 1 0) 1 0),
        [{ method := "GET", path := "/api/v1/storage/quota" }]) :=
  (upload_quota_precheck (NewStorageClient "https://p.wowsql.com" "anon")
    { transport := fun _ => .response 200 "quotabody",
      decodeQuota := fun _ => some
        { storageUsedBytes := 7, storageQuotaBytes := 7,
          storageAvailableBytes := 0, usagePercentage := 100 },
      decodeFile := fun _ => none,
      decodeUploadResult := fun _ => none }
    [42] "uploads/a.txt" "" none
    { storageUsedBytes := 7, storageQuotaBytes := 7,
      storageAvailableBytes := 0, usagePercentage := 100 }
    (Or.inr ⟨rfl, rfl⟩) rfl (by decide)).1

/-- C6: an explicit checkQuota override of false skips the quota fetch
and dispatches the upload regardless of the autoCheckQuota setting of
the client: the call is exactly the dispatched multipart upload, the only
request issued is the POST to the upload endpoint, and no request goes
to the quota endpoint. -/
theorem upload_override_false_dispatches (s : StorageClient)
    (env : StorageEnv) (fileData : List Nat) (key contentType : String) :
    s.Upload env fileData key contentType (some false) =
      s.uploadDispatch env ∧
    (s.Upload env fileData key contentType (some false)).2 =
      [{ method := "POST", path := "/api/v1/storage/upload" }] ∧
    ∀ r ∈ (s.Upload env fileData key contentType (some false)).2,
      r.path ≠ "/api/v1/storage/quota" := by
  have hmain : s.Upload env fileData key contentType (some false) =
      s.uploadDispatch env := by
    unfold StorageClient.Upload
    simp
  have hreqs := s.uploadDispatch_requests env
  refine ⟨hmain, by rw [hmain, hreqs], ?_⟩
  intro r hr
  rw [hmain, hreqs] at hr
  simp only [List.mem_singleton] at hr
  subst hr
  decide

/-- C5: FileExists translates a NotFoundError from GetFileInfo into
(false, nil), translates success into (true, nil), and propagates every
other error unchanged. -/
theorem fileExists_translates_notFound (s : StorageClient)
    (env : StorageEnv) (key : String) :
    (∀ msg, (s.GetFileInfo env key).1 = .error (.notFoundError msg) →
      (s.FileExists env key).1 = .ok false) ∧
    (∀ f, (s.GetFileInfo env key).1 = .ok f →
      (s.FileExists env key).1 = .ok true) ∧
    (∀ e, (s.GetFileInfo env key).1 = .error e →
      e.isNotFoundError = false → (s.FileExists env key).1 = .error e) := by
  refine ⟨?_, ?_, ?_⟩
  · intro msg hmsg
    unfold StorageClient.FileExists
    rcases hsplit : s.GetFileInfo env key with ⟨res, reqs⟩
    rw [hsplit] at hmsg
    simp only at hmsg
    rw [hmsg]
  · intro f hf
    unfold StorageClient.FileExists
    rcases hsplit : s.GetFileInfo env key with ⟨res, reqs⟩
    rw [hsplit] at hf
    simp only at hf
    rw [hf]
  · intro e he hnf
    unfold StorageClient.FileExists
    rcases hsplit : s.GetFileInfo env key with ⟨res, reqs⟩
    rw [hsplit] at he
    simp only at he
    rw [he]
    cases e <;> simp_all [GoError.isNotFoundError]

/-- Witness for C5: an environment answering 404 to the info GET, so
GetFileInfo fails with the classified NotFoundError and FileExists
returns false with no error. -/
theorem fileExists_translates_notFound_witness :
    ((NewStorageClient "https://p.wowsql.com" "anon").FileExists
      { transport := fun _ => .response 404 "missing",
        decodeQuota := fun _ => none,
        decodeFile := fun _ => none,
        decodeUploadResult := fun _ => none }
      "uploads/a.txt").1 = .ok false :=
  (fileExists_translates_notFound _ _ _).1 "missing" rfl

/-- C3 (amended): a transport failure with no HTTP response is wrapped
in a client-specific error carrying the underlying cause: the Auth
client wraps it in a NetworkError, but the Storage client wraps it in a
StorageError and the Schema client in a plain formatted error — not
every domain client produces a NetworkError. -/
theorem transport_failure_wrapping (cause method path : String)
    (a : AuthClient) (aenv : AuthEnv) (s : StorageClient)
    (senv : StorageEnv) (c : SchemaClient) (cenv : SchemaEnv)
    (req : CreateTableRequest)
    (ha : aenv.transport { method := method, path := path } = .failure cause)
    (hs : senv.transport { method := method, path := path } = .failure cause)
    (hc : cenv.transport { method := "POST", path := "/api/v2/schema/tables" } =
      .failure cause) :
    (a.doRequest aenv method path).1 = .error (.networkError cause) ∧
    (s.doRequest senv method path).1 = .error (.storageError cause) ∧
    c.CreateTable cenv req =
      .error (.fmtError ("failed to execute request: " ++ cause)) := by
  refine ⟨?_, ?_, ?_⟩
  · unfold AuthClient.doRequest
    simp [ha]
  · unfold StorageClient.doRequest
    simp [hs]
  · unfold SchemaClient.CreateTable
    simp [hc]

/-- Witness for C3 (amended): a connection-refused failure fed to all
three clients at once. -/
theorem transport_failure_wrapping_witness :
    ((NewAuthClient "https://p.wowsql.com/api/auth" "k").doRequest
      { transport := fun _ => .failure "connection refused",
        decodeAuthResponse := fun _ => none,
        decodeLoginResponse := fun _ => none,
        decodeUser := fun _ => none, decodeMap := fun _ => none }
      "GET" "/me").1 = .error (.networkError "connection refused") ∧
    ((NewStorageClient "https://p.wowsql.com" "k").doRequest
      { transport := fun _ => .failure "connection refused",
        decodeQuota := fun _ => none, decodeFile := fun _ => none,
        decodeUploadResult := fun _ => none }
      "GET" "/me").1 = .error (.storageError "connection refused") ∧
    (NewSchemaClient "https://p.wowsql.com" "svc").CreateTable
      { transport := fun _ => .failure "connection refused",
        decodeDetail := fun _ => none,
        decodeSchemaResponse := fun _ => none, decodeMap := fun _ => none }
      { tableName := "t", columns := [], primaryKey := none, indexes := [] } =
      .error (.fmtError ("failed to execute request: " ++ "connection refused")) :=
  transport_failure_wrapping "connection refused" "GET" "/me"
    (NewAuthClient "https://p.wowsql.com/api/auth" "k") _
    (NewStorageClient "https://p.wowsql.com" "k") _
    (NewSchemaClient "https://p.wowsql.com" "svc") _
    { tableName := "t", columns := [], primaryKey := none, indexes := [] }
    rfl rfl rfl

/-- C3 counterexample: on the Storage client, a connection-refused
transport failure yields a StorageError, which is not a NetworkError
value, refuting the claim for every domain client. -/
theorem storage_transport_failure_counterexample :
    ((NewStorageClient "https://p.wowsql.com" "anon").doRequest
      { transport := fun _ => .failure "connection refused",
        decodeQuota := fun _ => none, decodeFile := fun _ => none,
        decodeUploadResult := fun _ => none }
      "GET" "/api/v1/storage/quota").1 =
      .error (.storageError "connection refused") ∧
    (GoError.storageError "connection refused").isNetworkError = false :=
  ⟨rfl, rfl⟩

/-- C4 (amended): for the Storage and Auth clients every 2xx response is
returned as a success (the body handed to the per-operation decoder) and
every non-2xx response is classified into the error taxonomy by status
code (401 authentication, 403 permission, 404 not found, 429 rate limit,
other 4xx validation, 5xx server); the Schema client deviates: its
CreateTable treats every status other than 200 — 2xx statuses included —
as an error (403 mapped to the service-role message, handled before this
branch), and the package-directory variant accepts only 200 and 201. -/
theorem http_status_classification :
    (∀ (s : StorageClient) (env : StorageEnv) (method path : String)
        (st : Nat) (body : String),
      env.transport { method := method, path := path } = .response st body →
      (200 ≤ st → st < 300 → (s.doRequest env method path).1 = .ok body) ∧
      (st < 200 ∨ 300 ≤ st →
        (s.doRequest env method path).1 = .error (parseStorageError st body))) ∧
    (∀ (a : AuthClient) (env : AuthEnv) (method path : String)
        (st : Nat) (body : String),
      env.transport { method := method, path := path } = .response st body →
      (200 ≤ st → st < 300 → (a.doRequest env method path).1 = .ok body) ∧
      (st < 200 ∨ 300 ≤ st →
        (a.doRequest env method path).1 = .error (parseError st body))) ∧
    (∀ body : String,
      parseStorageError 401 body = .authenticationError body ∧
      parseStorageError 403 body = .permissionError body ∧
      parseStorageError 404 body = .notFoundError body ∧
      parseStorageError 429 body = .rateLimitError body ∧
      (∀ st, 400 ≤ st → st < 500 → st ≠ 401 → st ≠ 403 → st ≠ 404 →
        st ≠ 429 → parseStorageError st body = .validationError body) ∧
      (∀ st, 500 ≤ st → parseStorageError st body = .serverError body) ∧
      parseError 401 body = .authenticationError body ∧
      parseError 403 body = .permissionError body) ∧
    (∀ (c : SchemaClient) (env : SchemaEnv) (req : CreateTableRequest)
        (st : Nat) (body : String),
      env.transport { method := "POST", path := "/api/v2/schema/tables" } =
        .response st body →
      st ≠ 200 → st ≠ 403 →
      c.CreateTable env req = .error (.fmtError
        ("failed to create table: " ++ goFmtDetail (env.decodeDetail body)))) ∧
    (∀ (c : SchemaClient) (env : SchemaEnv) (req : CreateTableRequest)
        (st : Nat) (body : String),
      env.transport { method := "POST", path := "/api/v2/schema/tables" } =
        .response st body →
      st ≠ 200 → st ≠ 201 → st ≠ 403 →
      c.CreateTableV2 env req = .error (.fmtError
        (match env.decodeDetail body with
         | some detail => "failed to create table: " ++ detail
         | none => "failed to create table: status " ++ toString st))) := by
  refine ⟨?_, ?_, ?_, ?_, ?_⟩
  · intro s env method path st body h
    constructor
    · intro h1 h2
      unfold StorageClient.doRequest
      simp only [h]
      rw [if_neg (by omega)]
    · intro hout
      unfold StorageClient.doRequest
      simp only [h]
      rw [if_pos hout]
  · intro a env method path st body h
    constructor
    · intro h1 h2
      unfold AuthClient.doRequest
      simp only [h]
      rw [if_neg (by omega)]
    · intro hout
      unfold AuthClient.doRequest
      simp only [h]
      rw [if_pos hout]
  · intro body
    refine ⟨rfl, rfl, rfl, rfl, ?_, ?_, rfl, rfl⟩
    · intro st h4 h5 hne1 hne3 hne4 hne9
      unfold parseStorageError
      rw [if_neg (by simp [hne1]), if_neg (by simp [hne3]),
          if_neg (by simp [hne4]), if_neg (by simp [hne9]),
          if_pos ⟨h4, h5⟩]
    · intro st h5
      unfold parseStorageError
      rw [if_neg (by simp; omega), if_neg (by simp; omega),
          if_neg (by simp; omega), if_neg (by simp; omega),
          if_neg (by omega), if_pos h5]
  · intro c env req st body h h200 h403
    unfold SchemaClient.CreateTable
    simp only [h]
    rw [if_neg (by simp [h403]), if_pos h200]
  · intro c env req st body h h200 h201 h403
    unfold SchemaClient.CreateTableV2
    simp only [h]
    rw [if_neg (by simp [h403]), if_pos ⟨h200, h201⟩]

/-- Witness for C4 (amended): a 201 response on the storage quota GET is
a success, a 500 there is a ServerError, and a 204 (a 2xx status) on the
schema CreateTable is still an error. -/
theorem http_status_classification_witness :
    ((NewStorageClient "https://p.wowsql.com" "anon").doRequest
      { transport := fun _ => .response 201 "okbody",
        decodeQuota := fun _ => none, decodeFile := fun _ => none,
        decodeUploadResult := fun _ => none }
      "GET" "/api/v1/storage/quota").1 = .ok "okbody" ∧
    parseStorageError 500 "boom" = .serverError "boom" ∧
    (NewSchemaClient "https://p.wowsql.com" "svc").CreateTable
      { transport := fun _ => .response 204 "",
        decodeDetail := fun _ => none,
        decodeSchemaResponse := fun _ => none, decodeMap := fun _ => none }
      { tableName := "t", columns := [], primaryKey := none, indexes := [] } =
      .error (.fmtError ("failed to create table: " ++ goFmtDetail none)) :=
  ⟨(http_status_classification.1 (NewStorageClient "https://p.wowsql.com" "anon")
      { transport := fun _ => .response 201 "okbody",
        decodeQuota := fun _ => none, decodeFile := fun _ => none,
        decodeUploadResult := fun _ => none }
      "GET" "/api/v1/storage/quota" 201 "okbody" rfl).1 (by decide) (by decide),
   (http_status_classification.2.2.1 "boom").2.2.2.2.2.1 500 (by decide),
   http_status_classification.2.2.2.1 (NewSchemaClient "https://p.wowsql.com" "svc")
      { transport := fun _ => .response 204 "",
        decodeDetail := fun _ => none,
        decodeSchemaResponse := fun _ => none, decodeMap := fun _ => none }
      { tableName := "t", columns := [], primaryKey := none, indexes := [] }
      204 "" rfl (by decide) (by decide)⟩

/-- C4 counterexample: a 204 response — inside the 2xx range — to the
schema CreateTable call is treated as an error even though the body
would decode as a success shape, refuting the claim that every 2xx
response is deserialized into the expected result and never treated as
an error. -/
theorem schema_create_204_counterexample :
    (NewSchemaClient "https://p.wowsql.com" "svc").CreateTable
      { transport := fun _ => .response 204 "done",
        decodeDetail := fun _ => none,
        decodeSchemaResponse := fun _ => some
          { success := true, message := "created", table := "t",
            operation := "create", rowsAffected := 0, warning := "" },
        decodeMap := fun _ => some [] }
      { tableName := "t", columns := [], primaryKey := none, indexes := [] } =
      .error (.fmtError "failed to create table: <nil>") := rfl

/-- C2 (code evaluated at the failing input): a 403 response to each
schema-mutation call yields a plain formatted error whose message does
instruct the caller to use the SERVICE ROLE key, but the value is not a
distinguished PermissionError — the errors.As pattern documented in the
repository README for exactly this call cannot match it. -/
theorem schema_403_plain_error_bug :
    (NewSchemaClient "https://p.wowsql.com" "anon").CreateTable
      { transport := fun _ => .response 403 "denied",
        decodeDetail := fun _ => none,
        decodeSchemaResponse := fun _ => none, decodeMap := fun _ => none }
      { tableName := "t", columns := [], primaryKey := none, indexes := [] } =
      .error (.fmtError schemaPermissionMsgLong) ∧
    (NewSchemaClient "https://p.wowsql.com" "anon").AlterTable
      { transport := fun _ => .response 403 "denied",
        decodeDetail := fun _ => none,
        decodeSchemaResponse := fun _ => none, decodeMap := fun _ => none }
      { tableName := "t", operation := "add_column", columnName := some "c",
        columnType := some "INT", newColumnName := none, nullable := none,
        default := none } =
      .error (.fmtError schemaPermissionMsgShort) ∧
    (NewSchemaClient "https://p.wowsql.com" "anon").DropTable
      { transport := fun _ => .response 403 "denied",
        decodeDetail := fun _ => none,
        decodeSchemaResponse := fun _ => none, decodeMap := fun _ => none }
      "t" false =
      .error (.fmtError schemaPermissionMsgShort) ∧
    (NewSchemaClient "https://p.wowsql.com" "anon").ExecuteSQL
      { transport := fun _ => .response 403 "denied",
        decodeDetail := fun _ => none,
        decodeSchemaResponse := fun _ => none, decodeMap := fun _ => none }
      "CREATE TABLE t (id INT)" =
      .error (.fmtError schemaPermissionMsgShort) ∧
    (NewSchemaClient "https://p.wowsql.com" "anon").CreateTableV2
      { transport := fun _ => .response 403 "denied",
        decodeDetail := fun _ => none,
        decodeSchemaResponse := fun _ => none, decodeMap := fun _ => none }
      { tableName := "t", columns := [], primaryKey := none, indexes := [] } =
      .error (.fmtError schemaPermissionMsgLong) ∧
    (GoError.fmtError schemaPermissionMsgLong).isPermissionError = false ∧
    (GoError.fmtError schemaPermissionMsgShort).isPermissionError = false :=
  ⟨rfl, rfl, rfl, rfl, rfl, rfl, rfl⟩

/-- C7 (amended): the stored session tokens are overwritten with the
response tokens on every successful SignUp, SignIn,
ExchangeOAuthCallback and VerifyOTP with purpose login or signup, while
a VerifyOTP with purpose password_reset leaves them unchanged even on
success; every failed call and every other operation leaves them
unchanged, SetSession overwrites them, and ClearSession resets both to
empty. -/
theorem auth_session_mutation (c : AuthClient) (env : AuthEnv) :
    (∀ sess, (c.persistSession sess).accessToken = sess.accessToken ∧
      (c.persistSession sess).refreshToken = sess.refreshToken) ∧
    (∀ e p, (c.SignUp env e p).1 =
      match (c.SignUp env e p).2.1 with
      | .ok r => c.persistSession r.session
      | .error _ => c) ∧
    (∀ e p, (c.SignIn env e p).1 =
      match (c.SignIn env e p).2.1 with
      | .ok r => c.persistSession r.session
      | .error _ => c) ∧
    (∀ prov code ru, (c.ExchangeOAuthCallback env prov code ru).1 =
      match (c.ExchangeOAuthCallback env prov code ru).2.1 with
      | .ok r => c.persistSession r.session
      | .error _ => c) ∧
    (∀ em otp pu npw, (c.VerifyOTP env em otp pu npw).1 =
      if pu = "password_reset" then c
      else
        match (c.VerifyOTP env em otp pu npw).2.1 with
        | .ok r => c.persistSession r.session
        | .error _ => c) ∧
    (∀ t, (c.GetUser env t).1 = c) ∧
    (∀ prov ru, (c.GetOAuthAuthorizationURL env prov ru).1 = c) ∧
    (∀ em, (c.ForgotPassword env em).1 = c) ∧
    (∀ tk np, (c.ResetPassword env tk np).1 = c) ∧
    (∀ em pu, (c.SendOTP env em pu).1 = c) ∧
    (∀ em pu, (c.SendMagicLink env em pu).1 = c) ∧
    (∀ tk, (c.VerifyEmail env tk).1 = c) ∧
    (∀ em, (c.ResendVerification env em).1 = c) ∧
    (∀ a r, (c.SetSession a r).accessToken = a ∧
      (c.SetSession a r).refreshToken = r) ∧
    c.ClearSession.accessToken = "" ∧ c.ClearSession.refreshToken = "" := by
  refine ⟨fun sess => ⟨rfl, rfl⟩, ?_, ?_, ?_, ?_, ?_, ?_, ?_, ?_, ?_, ?_, ?_,
    ?_, fun a r => ⟨rfl, rfl⟩, rfl, rfl⟩
  · intro e p
    unfold AuthClient.SignUp
    rcases hd : c.doRequest env "POST" "/signup" with ⟨res, reqs⟩
    rcases res with err | body
    · simp
    · rcases hdec : env.decodeAuthResponse body with _ | resp <;> simp [hdec]
  · intro e p
    unfold AuthClient.SignIn
    rcases hd : c.doRequest env "POST" "/login" with ⟨res, reqs⟩
    rcases res with err | body
    · simp
    · rcases hdec : env.decodeLoginResponse body with _ | resp <;> simp [hdec]
  · intro prov code ru
    unfold AuthClient.ExchangeOAuthCallback
    rcases hd : c.doRequest env "POST" ("/oauth/" ++ prov ++ "/callback")
      with ⟨res, reqs⟩
    rcases res with err | body
    · simp
    · rcases hdec : env.decodeAuthResponse body with _ | resp <;> simp [hdec]
  · intro em otp pu npw
    unfold AuthClient.VerifyOTP
    by_cases h1 : pu ≠ "login" ∧ pu ≠ "signup" ∧ pu ≠ "password_reset"
    · rw [if_pos h1]
      rw [if_neg h1.2.2]
    · rw [if_neg h1]
      by_cases h2 : pu = "password_reset" ∧ npw = none
      · rw [if_pos h2]
        rw [if_pos h2.1]
      · rw [if_neg h2]
        rcases hd : c.doRequest env "POST" "/otp/verify" with ⟨res, reqs⟩
        rcases res with err | body
        · by_cases h3 : pu = "password_reset" <;> simp [h3]
        · by_cases h3 : pu = "password_reset"
          · rw [if_pos h3]
            rcases hdec : env.decodeMap body with _ | m <;> simp [h3, hdec]
          · rw [if_neg h3]
            rcases hdec : env.decodeAuthResponse body with _ | resp <;>
              simp [h3, hdec]
  · intro t
    unfold AuthClient.GetUser
    by_cases ht : c.effectiveToken t = ""
    · rw [if_pos ht]
    · rw [if_neg ht]
      rcases hd : c.doRequest env "GET" "/me" with ⟨res, reqs⟩
      rcases res with err | body
      · simp
      · rcases hdec : env.decodeUser body with _ | u <;> simp [hdec]
  · intro prov ru
    unfold AuthClient.GetOAuthAuthorizationURL
    rcases hd : c.doRequest env "GET"
      ("/oauth/" ++ prov ++ "?frontend_redirect_uri=" ++ ru) with ⟨res, reqs⟩
    rcases res with err | body
    · simp
    · rcases hdec : env.decodeMap body with _ | m <;> simp [hdec]
  · intro em
    unfold AuthClient.ForgotPassword
    rcases hd : c.doRequest env "POST" "/forgot-password" with ⟨res, reqs⟩
    rcases res with err | body
    · simp
    · rcases hdec : env.decodeMap body with _ | m <;> simp [hdec]
  · intro tk np
    unfold AuthClient.ResetPassword
    rcases hd : c.doRequest env "POST" "/reset-password" with ⟨res, reqs⟩
    rcases res with err | body
    · simp
    · rcases hdec : env.decodeMap body with _ | m <;> simp [hdec]
  · intro em pu
    unfold AuthClient.SendOTP
    by_cases h1 : pu ≠ "login" ∧ pu ≠ "signup" ∧ pu ≠ "password_reset"
    · rw [if_pos h1]
    · rw [if_neg h1]
      rcases hd : c.doRequest env "POST" "/otp/send" with ⟨res, reqs⟩
      rcases res with err | body
      · simp
      · rcases hdec : env.decodeMap body with _ | m <;> simp [hdec]
  · intro em pu
    unfold AuthClient.SendMagicLink
    by_cases h1 : pu ≠ "login" ∧ pu ≠ "signup" ∧ pu ≠ "email_verification"
    · rw [if_pos h1]
    · rw [if_neg h1]
      rcases hd : c.doRequest env "POST" "/magic-link/send" with ⟨res, reqs⟩
      rcases res with err | body
      · simp
      · rcases hdec : env.decodeMap body with _ | m <;> simp [hdec]
  · intro tk
    unfold AuthClient.VerifyEmail
    rcases hd : c.doRequest env "POST" "/verify-email" with ⟨res, reqs⟩
    rcases res with err | body
    · simp
    · rcases hdec : env.decodeMap body with _ | m <;> simp [hdec]
  · intro em
    unfold AuthClient.ResendVerification
    rcases hd : c.doRequest env "POST" "/resend-verification" with ⟨res, reqs⟩
    rcases res with err | body
    · simp
    · rcases hdec : env.decodeMap body with _ | m <;> simp [hdec]

/-- C7 counterexample: a successful VerifyOTP with purpose
password_reset, against a response that even carries fresh tokens, does
not overwrite the stored session tokens — they keep their old values —
refuting the claim that every successful VerifyOTP overwrites them with
the tokens from the response. -/
theorem verifyOTP_password_reset_counterexample :
    (({ baseURL := "https://p.wowsql.com/api/auth", apiKey := "k",
        publicKey := "k", accessToken := "old_access",
        refreshToken := "old_refresh" } : AuthClient).VerifyOTP
      { transport := fun _ => .response 200 "tokens",
        decodeAuthResponse := fun _ => some
          { user := none, accessToken := "new_access",
            refreshToken := "new_refresh", tokenType := "bearer",
            expiresIn := 3600 },
        decodeLoginResponse := fun _ => none, decodeUser := fun _ => none,
        decodeMap := fun _ => some [("message", "password updated")] }
      "u@example.com" "123456" "password_reset" (some "newpw")).2.1 =
      .ok { user := none,
            session := { accessToken := "", refreshToken := "",
                         tokenType := "", expiresIn := 0 } } ∧
    (({ baseURL := "https://p.wowsql.com/api/auth", apiKey := "k",
        publicKey := "k", accessToken := "old_access",
        refreshToken := "old_refresh" } : AuthClient).VerifyOTP
      { transport := fun _ => .response 200 "tokens",
        decodeAuthResponse := fun _ => some
          { user := none, accessToken := "new_access",
            refreshToken := "new_refresh", tokenType := "bearer",
            expiresIn := 3600 },
        decodeLoginResponse := fun _ => none, decodeUser := fun _ => none,
        decodeMap := fun _ => some [("message", "password updated")] }
      "u@example.com" "123456" "password_reset" (some "newpw")).1.accessToken =
      "old_access" ∧
    (({ baseURL := "https://p.wowsql.com/api/auth", apiKey := "k",
        publicKey := "k", accessToken := "old_access",
        refreshToken := "old_refresh" } : AuthClient).VerifyOTP
      { transport := fun _ => .response 200 "tokens",
        decodeAuthResponse := fun _ => some
          { user := none, accessToken := "new_access",
            refreshToken := "new_refresh", tokenType := "bearer",
            expiresIn := 3600 },
        decodeLoginResponse := fun _ => none, decodeUser := fun _ => none,
        decodeMap := fun _ => some [("message", "password updated")] }
      "u@example.com" "123456" "password_reset" (some "newpw")).1.refreshToken =
      "old_refresh" ∧
    "old_access" ≠ "new_access" ∧ "old_refresh" ≠ "new_refresh" := by
  refine ⟨rfl, rfl, rfl, by decide, by decide⟩

/-- C10: SendOTP and VerifyOTP reject a purpose outside login, signup,
password_reset locally — an error, no HTTP request, stored session
untouched — and VerifyOTP likewise rejects purpose password_reset
without a new password. -/
theorem otp_purpose_validation (c : AuthClient) (env : AuthEnv)
    (email otp purpose : String) (newPassword : Option String)
    (hp : purpose ≠ "login" ∧ purpose ≠ "signup" ∧
      purpose ≠ "password_reset") :
    c.SendOTP env email purpose =
      (c, .error (.fmtError otpPurposeMsg), []) ∧
    c.VerifyOTP env email otp purpose newPassword =
      (c, .error (.fmtError otpPurposeMsg), []) ∧
    c.VerifyOTP env email otp "password_reset" none =
      (c, .error (.fmtError "newPassword is required for password_reset purpose"),
        []) := by
  refine ⟨?_, ?_, ?_⟩
  · unfold AuthClient.SendOTP
    rw [if_pos hp]
  · unfold AuthClient.VerifyOTP
    rw [if_pos hp]
  · unfold AuthClient.VerifyOTP
    rw [if_neg (by simp), if_pos ⟨rfl, rfl⟩]

/-- Witness for C10: the rejected purpose email at a concrete client and
environment. -/
theorem otp_purpose_validation_witness :
    (NewAuthClient "https://p.wowsql.com/api/auth" "k").SendOTP
      { transport := fun _ => .response 200 "sent",
        decodeAuthResponse := fun _ => none,
        decodeLoginResponse := fun _ => none,
        decodeUser := fun _ => none, decodeMap := fun _ => some [] }
      "u@example.com" "email" =
      (NewAuthClient "https://p.wowsql.com/api/auth" "k",
        .error (.fmtError otpPurposeMsg), []) :=
  (otp_purpose_validation (NewAuthClient "https://p.wowsql.com/api/auth" "k")
    { transport := fun _ => .response 200 "sent",
      decodeAuthResponse := fun _ => none,
      decodeLoginResponse := fun _ => none,
      decodeUser := fun _ => none, decodeMap := fun _ => some [] }
    "u@example.com" "000000" "email" none
    (by refine ⟨?_, ?_, ?_⟩ <;> decide)).1
